import Mathlib

/-!
Verification development for the Symphony multi-agent pipeline.

Shallow embedding of the orchestrator state machine
(`core/orchestrator.py`), the Phase-1 agent (`agents/project_manager.py`)
and the coder agent (`agents/coder_agent.py`).  Python JSON-shaped values
are embedded as the inductive `JVal` (integer-only numbers), Python
exceptions as `PyErr`, fallible code as `Except PyErr`.
-/

/-- Embedded Python/JSON value (numbers restricted to integers). -/
inductive JVal where
  | null
  | bool (b : Bool)
  | num (n : Int)
  | str (s : String)
  | arr (xs : List JVal)
  | obj (kvs : List (String × JVal))
deriving Repr

mutual

/-- Structural equality on embedded values (Python `==` on JSON data). -/
def JVal.beq : JVal → JVal → Bool
  | .null, .null => true
  | .bool a, .bool b => a == b
  | .num a, .num b => a == b
  | .str a, .str b => a == b
  | .arr xs, .arr ys => JVal.beqList xs ys
  | .obj xs, .obj ys => JVal.beqKvs xs ys
  | _, _ => false

/-- Elementwise equality of value lists. -/
def JVal.beqList : List JVal → List JVal → Bool
  | [], [] => true
  | x :: xs, y :: ys => JVal.beq x y && JVal.beqList xs ys
  | _, _ => false

/-- Elementwise equality of key-value lists. -/
def JVal.beqKvs : List (String × JVal) → List (String × JVal) → Bool
  | [], [] => true
  | (k1, v1) :: xs, (k2, v2) :: ys => k1 == k2 && JVal.beq v1 v2 && JVal.beqKvs xs ys
  | _, _ => false

end

instance : BEq JVal := ⟨JVal.beq⟩

/-- Embedded Python exception. -/
inductive PyErr where
  | keyError (key : String)
  | typeError
  | attrError
  | valueError (msg : String)
  | nameError (name : String)
  | genFailure (msg : String)
deriving DecidableEq, Repr

/-- First binding of a key in a key-value list (Python dict lookup; parsed
objects are deduplicated so each key occurs at most once). -/
def lookupKey : List (String × JVal) → String → Option JVal
  | [], _ => none
  | (k, v) :: rest, key => if k == key then some v else lookupKey rest key

/-- Python truthiness of an embedded value. -/
def JVal.truthy : JVal → Bool
  | .null => false
  | .bool b => b
  | .num n => n != 0
  | .str s => s != ""
  | .arr xs => !xs.isEmpty
  | .obj kvs => !kvs.isEmpty

/-- Truthiness of `dict.get` results (`None` when the key is absent). -/
def truthyOpt : Option JVal → Bool
  | none => false
  | some j => j.truthy

/-- Python `d.get(key)`: `AttributeError` unless `d` is a dict. -/
def JVal.getAttr : JVal → String → Except PyErr (Option JVal)
  | .obj kvs, key => .ok (lookupKey kvs key)
  | _, _ => .error .attrError

/-- Python `d.get(key, default)`: `AttributeError` unless `d` is a dict. -/
def JVal.getAttrD (j : JVal) (key : String) (dflt : JVal) : Except PyErr JVal :=
  match j with
  | .obj kvs => .ok ((lookupKey kvs key).getD dflt)
  | _ => .error .attrError

/-- Python `x[key]` with a string key: `KeyError` on dicts missing the key,
`TypeError` on every non-dict. -/
def JVal.item : JVal → String → Except PyErr JVal
  | .obj kvs, key =>
    match lookupKey kvs key with
    | some v => .ok v
    | none => .error (.keyError key)
  | _, _ => .error .typeError

/-- Substring test on character lists (Python `needle in haystack`). -/
def strContains (hay needle : List Char) : Bool :=
  needle.isPrefixOf hay ||
    match hay with
    | [] => false
    | _ :: t => strContains t needle

/-- Python `key in x` for a string key: key test on dicts, membership on
lists, substring test on strings, `TypeError` otherwise. -/
def pyContains (j : JVal) (key : String) : Except PyErr Bool :=
  match j with
  | .obj kvs => .ok ((lookupKey kvs key).isSome)
  | .arr xs => .ok (xs.contains (.str key))
  | .str s => .ok (strContains s.toList key.toList)
  | _ => .error .typeError

/-- Python `for x in j`: lists yield elements, strings yield one-character
strings, dicts yield their keys, everything else raises `TypeError`. -/
def pyIter : JVal → Except PyErr (List JVal)
  | .arr xs => .ok xs
  | .str s => .ok (s.toList.map (fun c => .str (String.singleton c)))
  | .obj kvs => .ok (kvs.map (fun kv => .str kv.1))
  | _ => .error .typeError

mutual

/-- Python `repr` of an embedded value (element form inside containers). -/
def pyRepr : JVal → String
  | .null => "None"
  | .bool true => "True"
  | .bool false => "False"
  | .num n => toString n
  | .str s => "\x27" ++ s ++ "\x27"
  | .arr xs => "[" ++ pyReprList xs ++ "]"
  | .obj kvs => "\x7b" ++ pyReprKvs kvs ++ "\x7d"

/-- Comma-joined `repr`s of list elements. -/
def pyReprList : List JVal → String
  | [] => ""
  | [x] => pyRepr x
  | x :: xs => pyRepr x ++ ", " ++ pyReprList xs

/-- Comma-joined `repr`s of dict entries. -/
def pyReprKvs : List (String × JVal) → String
  | [] => ""
  | [(k, v)] => "\x27" ++ k ++ "\x27: " ++ pyRepr v
  | (k, v) :: kvs => "\x27" ++ k ++ "\x27: " ++ pyRepr v ++ ", " ++ pyReprKvs kvs

end

/-- Python `str` of an embedded value (as used by f-string interpolation). -/
def pyStr : JVal → String
  | .str s => s
  | v => pyRepr v

/-- Python `str(e)` for an embedded exception. -/
def pyStrOfErr : PyErr → String
  | .keyError k => "\x27" ++ k ++ "\x27"
  | .typeError => "TypeError"
  | .attrError => "AttributeError"
  | .valueError m => m
  | .nameError n => "name \x27" ++ n ++ "\x27 is not defined"
  | .genFailure m => m

/-- Python `sep.join(x)`: all elements must be strings, a string argument is
joined character by character, anything else raises `TypeError`. -/
def pyJoin (sep : String) (j : JVal) : Except PyErr String :=
  match j with
  | .arr xs =>
    match xs.mapM (fun v => match v with | .str s => some s | _ => none) with
    | some strs => .ok (String.intercalate sep strs)
    | none => .error .typeError
  | .str s => .ok (String.intercalate sep (s.toList.map String.singleton))
  | _ => .error .typeError

/-- The `Char` for an opening curly brace. -/
def lbrace : Char := Char.ofNat 123

/-- The `Char` for a closing curly brace. -/
def rbrace : Char := Char.ofNat 125

/-- JSON whitespace. -/
def isWsChar (c : Char) : Bool := c == ' ' || c == '\t' || c == '\n' || c == '\r'

/-- Drop leading JSON whitespace. -/
def skipWs : List Char → List Char
  | c :: cs => if isWsChar c then skipWs cs else c :: cs
  | [] => []

/-- Body of a JSON string literal after the opening quote; supports the
simple escapes (`\u` sequences are rejected). -/
def parseStrBody : List Char → List Char → Option (String × List Char)
  | acc, '"' :: rest => some (String.mk acc.reverse, rest)
  | acc, '\\' :: e :: rest =>
    (match e with
     | '"' => some '"'
     | '\\' => some '\\'
     | '/' => some '/'
     | 'n' => some '\n'
     | 't' => some '\t'
     | 'r' => some '\r'
     | 'b' => some (Char.ofNat 8)
     | 'f' => some (Char.ofNat 12)
     | _ => none).bind
      (fun c => parseStrBody (c :: acc) rest)
  | acc, c :: rest => if c == '"' || c == '\\' then none else parseStrBody (c :: acc) rest
  | _, [] => none

/-- Accumulate a run of decimal digits into a value. -/
def parseDigitsAux (acc : Nat) : List Char → Nat × List Char
  | c :: cs =>
    if c.isDigit then parseDigitsAux (acc * 10 + (c.toNat - 48)) cs else (acc, c :: cs)
  | [] => (acc, [])

/-- JSON integer literal with optional leading minus sign. -/
def parseNum : List Char → Option (JVal × List Char)
  | '-' :: c :: rest =>
    if c.isDigit then
      let p := parseDigitsAux (c.toNat - 48) rest
      some (.num (-(p.1 : Int)), p.2)
    else none
  | c :: rest =>
    if c.isDigit then
      let p := parseDigitsAux (c.toNat - 48) rest
      some (.num ((p.1 : Int)), p.2)
    else none
  | [] => none

/-- Insert or overwrite one key (Python dicts keep the last duplicate). -/
def upsertKey : List (String × JVal) → String → JVal → List (String × JVal)
  | [], k, v => [(k, v)]
  | (k1, v1) :: rest, k, v =>
    if k1 == k then (k1, v) :: rest else (k1, v1) :: upsertKey rest k v

/-- Build a dict from parsed members, later duplicates overwriting. -/
def dedupeKeys (ms : List (String × JVal)) : List (String × JVal) :=
  ms.foldl (fun acc kv => upsertKey acc kv.1 kv.2) []

mutual

/-- Fuel-bounded JSON value recogniser. -/
def parseVal : Nat → List Char → Option (JVal × List Char)
  | 0, _ => none
  | Nat.succ fuel, cs0 =>
    match skipWs cs0 with
    | [] => none
    | c :: rest =>
      if c == '"' then
        (parseStrBody [] rest).map (fun p => (.str p.1, p.2))
      else if c == 't' then
        match rest with
        | 'r' :: 'u' :: 'e' :: r => some (.bool true, r)
        | _ => none
      else if c == 'f' then
        match rest with
        | 'a' :: 'l' :: 's' :: 'e' :: r => some (.bool false, r)
        | _ => none
      else if c == 'n' then
        match rest with
        | 'u' :: 'l' :: 'l' :: r => some (.null, r)
        | _ => none
      else if c == '[' then
        match skipWs rest with
        | ']' :: r => some (.arr [], r)
        | cs1 =>
          match parseVal fuel cs1 with
          | none => none
          | some (v, r1) =>
            match parseArrTail fuel (skipWs r1) with
            | none => none
            | some (vs, r2) => some (.arr (v :: vs), r2)
      else if c == lbrace then
        match skipWs rest with
        | cs1 =>
          if cs1.headD ' ' == rbrace then some (.obj [], cs1.tail)
          else
            match parseMember fuel cs1 with
            | none => none
            | some (kv, r1) =>
              match parseObjTail fuel (skipWs r1) with
              | none => none
              | some (kvs, r2) => some (.obj (dedupeKeys (kv :: kvs)), r2)
      else parseNum (c :: rest)

/-- Array continuation: a comma-separated tail or the closing bracket. -/
def parseArrTail : Nat → List Char → Option (List JVal × List Char)
  | 0, _ => none
  | Nat.succ fuel, cs =>
    match cs with
    | ']' :: r => some ([], r)
    | ',' :: r =>
      match parseVal fuel r with
      | none => none
      | some (v, r1) =>
        match parseArrTail fuel (skipWs r1) with
        | none => none
        | some (vs, r2) => some (v :: vs, r2)
    | _ => none

/-- One `"key": value` object member. -/
def parseMember : Nat → List Char → Option ((String × JVal) × List Char)
  | 0, _ => none
  | Nat.succ fuel, cs =>
    match cs with
    | '"' :: r =>
      match parseStrBody [] r with
      | none => none
      | some (k, r1) =>
        match skipWs r1 with
        | ':' :: r2 =>
          match parseVal fuel r2 with
          | none => none
          | some (v, r3) => some ((k, v), r3)
        | _ => none
    | _ => none

/-- Object continuation: a comma-separated member tail or the closing brace. -/
def parseObjTail : Nat → List Char → Option (List (String × JVal) × List Char)
  | 0, _ => none
  | Nat.succ fuel, cs =>
    if cs.headD ' ' == rbrace then some ([], cs.tail)
    else
      match cs with
      | ',' :: r =>
        match parseMember fuel (skipWs r) with
        | none => none
        | some (kv, r1) =>
          match parseObjTail fuel (skipWs r1) with
          | none => none
          | some (kvs, r2) => some (kv :: kvs, r2)
      | _ => none

end

/-- Embedded `json.loads`: `none` models a raised `JSONDecodeError`. -/
def json_loads (s : String) : Option JVal :=
  match parseVal (2 * s.length + 2) s.toList with
  | some (v, rest) => if (skipWs rest).isEmpty then some v else none
  | none => none

/-- Response of the external generation capability (`llm_service.generate`). -/
structure GenResp where
  content : String
  model : String
deriving Repr

/-- Return value of `ProjectManager.analyze_project`: the fields `phase` and
`status` of the returned dict are the constants `1` and `"completed"` on
every path and are omitted; `note` is present only on the repaired and
fallback paths. -/
structure Phase1Resp where
  result : JVal
  model_used : String
  note : Option String
deriving Repr

/-- Embedding of `ProjectManager._create_fallback_tasks`: the deterministic two-task
fallback spec synthesized from the user prompt. -/
def create_fallback_tasks (user_prompt : String) : Phase1Resp :=
  { result := .obj [
      ("project_name", .str ("Project from: " ++ String.mk (user_prompt.toList.take 50))),
      ("description", .str user_prompt),
      ("tasks", .arr [
        .obj [("id", .num 1), ("title", .str "Create main implementation"),
              ("description", .str user_prompt), ("agent_type", .str "coder"),
              ("priority", .str "high"), ("dependencies", .arr []),
              ("expected_output", .str "Main code implementation"),
              ("estimated_time", .str "1 hour")],
        .obj [("id", .num 2), ("title", .str "Create documentation"),
              ("description", .str "Document the project"), ("agent_type", .str "writer"),
              ("priority", .str "medium"), ("dependencies", .arr [.num 1]),
              ("expected_output", .str "Project documentation"),
              ("estimated_time", .str "30 minutes")]]),
      ("tech_stack", .arr [.str "Python"]),
      ("success_criteria", .arr [.str "Working implementation"]),
      ("constraints", .arr [])],
    model_used := "fallback",
    note := some "Used fallback task structure" }

/-- Python `s.find(c)`: first index or `-1`. -/
def pyFind (cs : List Char) (c : Char) : Int :=
  match cs.findIdx? (· == c) with
  | some i => (i : Int)
  | none => -1

/-- Python `s.rfind(c)`: last index or `-1`. -/
def pyRfind (cs : List Char) (c : Char) : Int :=
  match cs.reverse.findIdx? (· == c) with
  | some i => ((cs.length : Int) - 1 - (i : Int))
  | none => -1

/-- Embedding of `ProjectManager._fix_json_response`: extract the outermost brace-delimited
substring and re-parse it; every failure falls back to the synthetic tasks
(the bare `except` swallows everything). -/
def fix_json_response (raw : String) (user_prompt : String) : Phase1Resp :=
  let cs := raw.toList
  let startIdx := pyFind cs lbrace
  let endIdx := pyRfind cs rbrace + 1
  if startIdx != -1 && endIdx != 0 then
    let sub := String.mk ((cs.drop startIdx.toNat).take (endIdx - startIdx).toNat)
    match json_loads sub with
    | some result => { result := result, model_used := "gemini-pro", note := some "JSON was fixed" }
    | none => create_fallback_tasks user_prompt
  else create_fallback_tasks user_prompt

/-- Embedding of `ProjectManager.analyze_project`, with the generation call replaced by
its outcome: a raising generation call propagates (the `except Exception`
handler re-raises), a `JSONDecodeError` from parsing enters the repair
chain, valid JSON without a `tasks` member raises `ValueError` (re-raised),
and a `TypeError` from the `"tasks" not in result` test also propagates. -/
def analyze_project (gen : Except PyErr GenResp) (user_prompt : String) :
    Except PyErr Phase1Resp :=
  match gen with
  | .error e => .error e
  | .ok resp =>
    match json_loads resp.content with
    | none => .ok (fix_json_response resp.content user_prompt)
    | some result =>
      match pyContains result "tasks" with
      | .error e => .error e
      | .ok true => .ok { result := result, model_used := resp.model, note := none }
      | .ok false => .error (.valueError "Invalid response from project manager")

/-- The coder agent's raw-text fallback record for unparseable responses. -/
def coder_default (content : String) : JVal :=
  .obj [("code", .str content), ("explanation", .str "Generated code"),
        ("dependencies", .arr [.str "python"]), ("file_name", .str "main.py"),
        ("instructions", .str "Run: python main.py")]

/-- The `try` body of `CoderAgent.execute_task`: prompt formatting (its field
lookups and the tech-stack join, in source order), the generation call, the
parse-or-default of the response and the success TaskResult.  The prompt
template itself lives outside the embedded sources and only its evaluation
order is modelled. -/
def coder_try (gen : Except PyErr GenResp) (task ctx : JVal) : Except PyErr JVal :=
  match JVal.item task "description" with
  | .error e => .error e
  | .ok _ =>
    match JVal.getAttrD ctx "tech_stack" (.arr [.str "Python"]) with
    | .error e => .error e
    | .ok ts =>
      match pyJoin ", " ts with
      | .error e => .error e
      | .ok _ =>
        match JVal.item task "expected_output" with
        | .error e => .error e
        | .ok _ =>
          match gen with
          | .error e => .error e
          | .ok resp =>
            let result :=
              match json_loads resp.content with
              | some r => r
              | none => coder_default resp.content
            match JVal.item task "id" with
            | .error e => .error e
            | .ok tid =>
              .ok (.obj [("task_id", tid), ("agent", .str "coder"),
                         ("status", .str "completed"), ("output", result),
                         ("model_used", .str resp.model)])

/-- Embedding of `CoderAgent.execute_task`: the `task["title"]` access in the entry log
line runs before the `try` block and propagates; every exception inside the
`try` is converted to a failed TaskResult, whose construction itself reads
`task["id"]` and so can still propagate a `KeyError`. -/
def execute_task (gen : Except PyErr GenResp) (task ctx : JVal) : Except PyErr JVal :=
  match JVal.item task "title" with
  | .error e => .error e
  | .ok _ =>
    match coder_try gen task ctx with
    | .ok r => .ok r
    | .error e =>
      match JVal.item task "id" with
      | .error e2 => .error e2
      | .ok tid =>
        .ok (.obj [("task_id", tid), ("agent", .str "coder"),
                   ("status", .str "failed"),
                   ("output", .obj [("error", .str (pyStrOfErr e))]),
                   ("model_used", .str "error")])

/-- Return value of `ProjectOrchestrator._generate_final_project`. -/
structure FinalProject where
  files_created : List String
  total_files : Nat
  project_dir : String
  instructions : JVal
deriving Repr

/-- True exactly when a `project_structure` value is a string longer than 10
characters (`isinstance(content, str) and len(content) > 10`). -/
def is_long_str : JVal → Bool
  | .str s => decide (s.length > 10)
  | _ => false

/-- The `project_structure` loop of `_generate_final_project`: filenames
appended for entries passing the length guard, in order. -/
def structure_files : List (String × JVal) → List String
  | [] => []
  | (name, content) :: rest =>
    if is_long_str content then name :: structure_files rest
    else structure_files rest

/-- The first three conditional artifacts of `_generate_final_project`
(main file, README, dependency list), including the raising item accesses
and the newline join performed before each write. -/
def base_files (integration : JVal) : Except PyErr (List String) :=
  match pyContains integration "main_file" with
  | .error e => .error e
  | .ok c1 =>
    match (if c1 then (JVal.item integration "main_file").map (fun _ => ()) else .ok ()) with
    | .error e => .error e
    | .ok _ =>
      let f1 : List String := if c1 then ["main.py"] else []
      match pyContains integration "documentation" with
      | .error e => .error e
      | .ok c2 =>
        match (if c2 then (JVal.item integration "documentation").map (fun _ => ()) else .ok ()) with
        | .error e => .error e
        | .ok _ =>
          let f2 := f1 ++ if c2 then ["README.md"] else []
          match pyContains integration "dependencies" with
          | .error e => .error e
          | .ok c3 =>
            match (if c3 then
                     match JVal.item integration "dependencies" with
                     | .error e => (.error e : Except PyErr Unit)
                     | .ok deps => (pyJoin "\n" deps).map (fun _ => ())
                   else .ok ()) with
            | .error e => .error e
            | .ok _ => .ok (f2 ++ if c3 then ["requirements.txt"] else [])

/-- Embedding of `ProjectOrchestrator._generate_final_project`: conditional writes of the
three fixed artifacts, the guarded `project_structure` entries (`.items()`
on a non-dict raises `AttributeError`), and the summary record whose
`instructions` default to `["python main.py"]`. -/
def generate_final_project (dir : String) (integration _spec : JVal) :
    Except PyErr FinalProject :=
  match base_files integration with
  | .error e => .error e
  | .ok base =>
    match pyContains integration "project_structure" with
    | .error e => .error e
    | .ok c4 =>
      match (if c4 then
               match JVal.item integration "project_structure" with
               | .error e => (.error e : Except PyErr (List String))
               | .ok (.obj entries) => .ok (structure_files entries)
               | .ok _ => .error .attrError
             else .ok []) with
      | .error e => .error e
      | .ok extra =>
        let files := base ++ extra
        match JVal.getAttrD integration "build_commands" (.arr [.str "python main.py"]) with
        | .error e => .error e
        | .ok instr =>
          .ok { files_created := files, total_files := files.length,
                project_dir := dir, instructions := instr }

/-- External collaborators of one orchestrator run, indexed so that distinct
call sites (restart depth, iteration, task position) may answer
differently: the Phase-1 agent, the three Phase-2 agents, the integrator
(initial call and refinement re-runs), the tester, the coder re-execution
during refinement, and the timestamp-based identifiers. -/
structure Oracles where
  projectIdO : Nat → String
  timestampO : Nat → String
  analyzeO : Nat → String → Except PyErr Phase1Resp
  coderExecO : Nat → Nat → JVal → JVal → Except PyErr JVal
  designerExecO : Nat → Nat → JVal → JVal → Except PyErr JVal
  researcherExecO : Nat → Nat → JVal → JVal → Except PyErr JVal
  integrateO : Nat → List JVal → JVal → JVal
  reintegrateO : Nat → Nat → List JVal → JVal → JVal
  testO : Nat → Nat → JVal → JVal → JVal
  refixO : Nat → Nat → Nat → JVal → JVal → Except PyErr JVal

/-- The Phase-2 task loop of `process_project`: agent dispatch on
`task.get("agent_type", "coder")` (unknown types default to the coder),
one result appended per task, and the `task["id"]` access of the per-task
save call, which propagates. -/
def run_phase2 (O : Oracles) (depth : Nat) (spec : JVal) :
    List JVal → Nat → Except PyErr (List JVal)
  | [], _ => .ok []
  | task :: rest, idx =>
    match JVal.getAttrD task "agent_type" (.str "coder") with
    | .error e => .error e
    | .ok at_ =>
      match (if at_ == JVal.str "coder" then O.coderExecO depth idx task spec
             else if at_ == JVal.str "designer" then O.designerExecO depth idx task spec
             else if at_ == JVal.str "researcher" then O.researcherExecO depth idx task spec
             else O.coderExecO depth idx task spec) with
      | .error e => .error e
      | .ok r =>
        match JVal.item task "id" with
        | .error e => .error e
        | .ok _ =>
          match run_phase2 O depth spec rest (idx + 1) with
          | .error e => .error e
          | .ok rs => .ok (r :: rs)

/-- Mutable state of the refinement loop: the Phase-2 results sequence, the
current integration result, the Python local `new_result` (`none` while
still unbound) and the latest tester record (`phase_results[4]`). -/
structure LoopState where
  phase2 : List JVal
  phase3 : JVal
  newRes : Option JVal
  p4 : Option JVal

/-- Embedding of `next((t for t in tasks if t["id"] == task_id), None)`: lazy scan whose
per-element `t["id"]` access propagates. -/
def find_task : List JVal → JVal → Except PyErr (Option JVal)
  | [], _ => .ok none
  | t :: rest, tid =>
    match JVal.item t "id" with
    | .error e => .error e
    | .ok v => if v == tid then .ok (some t) else find_task rest tid

/-- The update scan `for i, res in enumerate(phase2_results)`: the first
result whose `task_id` matches is overwritten with `new_result` and the
scan breaks; an unbound `new_result` at that point raises `NameError`;
results after the first match and non-matching results are untouched. -/
def replace_first (nr : Option JVal) : List JVal → JVal → Except PyErr (List JVal)
  | [], _ => .ok []
  | res :: rest, tid =>
    match JVal.item res "task_id" with
    | .error e => .error e
    | .ok v =>
      if v == tid then
        match nr with
        | none => .error (.nameError "new_result")
        | some n => .ok (n :: rest)
      else
        match replace_first nr rest tid with
        | .error e => .error e
        | .ok rest' => .ok (res :: rest')

/-- One entry of the `for task_id in tasks_to_fix` loop: task lookup by id,
the truthiness test `if task:`, re-execution only for coder-typed tasks
(`task["agent_type"]` propagates a `KeyError`), and the update scan, which
runs for every found truthy task whatever its agent type. -/
def fix_one (O : Oracles) (depth iter fixIdx : Nat) (spec : JVal) (tid : JVal)
    (s : LoopState) : Except PyErr LoopState :=
  match JVal.item spec "tasks" with
  | .error e => .error e
  | .ok tasksJ =>
    match pyIter tasksJ with
    | .error e => .error e
    | .ok tasks =>
      match find_task tasks tid with
      | .error e => .error e
      | .ok none => .ok s
      | .ok (some t) =>
        if t.truthy then
          match JVal.item t "agent_type" with
          | .error e => .error e
          | .ok at_ =>
            match (if at_ == JVal.str "coder" then (O.refixO depth iter fixIdx t spec).map some
                   else .ok s.newRes) with
            | .error e => .error e
            | .ok nr =>
              match replace_first nr s.phase2 tid with
              | .error e => .error e
              | .ok p2' => .ok { s with phase2 := p2', newRes := nr }
        else .ok s

/-- The whole `for task_id in tasks_to_fix` loop. -/
def apply_fixes_list (O : Oracles) (depth iter : Nat) (spec : JVal) :
    List JVal → Nat → LoopState → Except PyErr LoopState
  | [], _, s => .ok s
  | tid :: rest, fixIdx, s =>
    match fix_one O depth iter fixIdx spec tid s with
    | .error e => .error e
    | .ok s' => apply_fixes_list O depth iter spec rest (fixIdx + 1) s'

/-- The `needs_phase2_modifications` branch body: iterate over
`tasks_to_fix` (a non-iterable raises `TypeError`). -/
def applyFixes (O : Oracles) (depth iter : Nat) (spec : JVal) (fixes : JVal)
    (s : LoopState) : Except PyErr LoopState :=
  match pyIter fixes with
  | .error e => .error e
  | .ok ids => apply_fixes_list O depth iter spec ids 0 s

/-- Outcome of one refinement-loop iteration body; `tested` records whether
the tester was invoked before the exception. -/
inductive StepRes where
  | raise (e : PyErr) (tested : Bool)
  | pass (s : LoopState)
  | restartReq (errs : JVal) (s : LoopState)
  | next (s : LoopState)

/-- One iteration body of the Phase-4 loop, in the source's priority order:
run the tester on `phase3_result["output"]`, record it as the phase-4
result, exit on `status == "pass"`, request a Phase-1 restart on a truthy
`needs_phase1_restart`, patch Phase-2 results and re-integrate on a truthy
`needs_phase2_modifications`, otherwise continue unchanged. -/
def loopStep (O : Oracles) (depth : Nat) (spec : JVal) (iter : Nat)
    (s : LoopState) : StepRes :=
  match JVal.item s.phase3 "output" with
  | .error e => .raise e false
  | .ok intOut =>
    let t := O.testO depth iter intOut spec
    let s1 := { s with p4 := some t }
    match JVal.item t "output" with
    | .error e => .raise e true
    | .ok out =>
      match JVal.getAttr out "status" with
      | .error e => .raise e true
      | .ok st =>
        if st == some (JVal.str "pass") then .pass s1
        else
          match JVal.getAttr out "needs_phase1_restart" with
          | .error e => .raise e true
          | .ok r1 =>
            if truthyOpt r1 then
              match JVal.getAttrD out "errors" (.arr []) with
              | .error e => .raise e true
              | .ok errs => .restartReq errs s1
            else
              match JVal.getAttr out "needs_phase2_modifications" with
              | .error e => .raise e true
              | .ok r2 =>
                if truthyOpt r2 then
                  match JVal.getAttrD out "specific_tasks_to_fix" (.arr []) with
                  | .error e => .raise e true
                  | .ok fixes =>
                    match applyFixes O depth iter spec fixes s1 with
                    | .error e => .raise e true
                    | .ok s2 => .next { s2 with phase3 := O.reintegrateO depth iter s2.phase2 spec }
                else .next s1

/-- Result of the refinement loop.  In every constructor the `Nat` is the
number of completed tester invocations. -/
inductive LoopRes where
  | finished (s : LoopState) (iters : Nat) (passed : Bool)
  | restart (errs : JVal) (s : LoopState) (iters : Nat)
  | raised (e : PyErr) (iters : Nat)

/-- Number of completed tester invocations of a loop result. -/
def loopIters : LoopRes → Nat
  | .finished _ k _ => k
  | .restart _ _ k => k
  | .raised _ k => k

/-- The Phase-4 refinement loop `for iteration in range(max_iterations)`:
`iter` is the next iteration index, the second argument the remaining
iteration budget. -/
def runLoop (O : Oracles) (depth : Nat) (spec : JVal) :
    Nat → Nat → LoopState → LoopRes
  | iter, 0, s => .finished s iter false
  | iter, Nat.succ r, s =>
    match loopStep O depth spec iter s with
    | .raise e tested => .raised e (if tested then iter + 1 else iter)
    | .pass s1 => .finished s1 (iter + 1) true
    | .restartReq errs s1 => .restart errs s1 (iter + 1)
    | .next s1 => runLoop O depth spec (iter + 1) r s1

/-- The hardcoded iteration budget of the Phase-4 loop. -/
def max_iterations : Nat := 3

/-- The per-phase results mapping `self.phase_results` as returned in the
final record: phase 3 keeps the initial integration result (refinement
re-integrations only rebind the local variable), phase 2 aliases the
in-place patched results list, phase 4 is the last tester record. -/
structure Phases where
  p1 : Phase1Resp
  p2 : List JVal
  p3 : JVal
  p4 : Option JVal

/-- The record returned by a successful `process_project` call.  The
top-level `status` field is the literal `"success"` on every return path. -/
structure FinalResult where
  status : String
  project_id : String
  project_name : JVal
  description : String
  phases : Phases
  project_path : String
  download_url : String
  final_project : FinalProject
  timestamp : String

/-- Outcome of one pipeline attempt (one activation of `process_project`
up to, but not through, a possible recursive restart). -/
inductive AttemptRes where
  | done (r : FinalResult)
  | exn (e : PyErr)
  | restartReq (improved : String)

/-- One activation of `ProjectOrchestrator.process_project` without the
restart recursion: Phase 1, the Phase-2 task loop, the initial
integration, the Phase-4 refinement loop, and the final assembly that runs
unconditionally after the loop.  A `needs_phase1_restart` outcome surfaces
as `restartReq` with the augmented prompt. -/
def process_attempt (O : Oracles) (depth : Nat) (user_prompt : String) : AttemptRes :=
  let projectId := O.projectIdO depth
  let projectDir := "generated_projects/project_" ++ projectId
  match O.analyzeO depth user_prompt with
  | .error e => .exn e
  | .ok phase1 =>
    let spec := phase1.result
    match JVal.item spec "tasks" with
    | .error e => .exn e
    | .ok tasksJ =>
      match pyIter tasksJ with
      | .error e => .exn e
      | .ok tasks =>
        match run_phase2 O depth spec tasks 0 with
        | .error e => .exn e
        | .ok p2 =>
          let p3 := O.integrateO depth p2 spec
          match runLoop O depth spec 0 max_iterations ⟨p2, p3, none, none⟩ with
          | .raised e _ => .exn e
          | .restart errs _ _ =>
            .restartReq (user_prompt ++ "\n\nIssues to fix: " ++ pyStr errs)
          | .finished sEnd _ _ =>
            match JVal.item sEnd.phase3 "output" with
            | .error e => .exn e
            | .ok integ =>
              match generate_final_project projectDir integ spec with
              | .error e => .exn e
              | .ok fp =>
                match JVal.getAttrD spec "project_name" (.str "Untitled Project") with
                | .error e => .exn e
                | .ok pname =>
                  .done { status := "success", project_id := projectId,
                          project_name := pname, description := user_prompt,
                          phases := ⟨phase1, sEnd.phase2, p3, sEnd.p4⟩,
                          project_path := projectDir,
                          download_url := "/api/projects/" ++ projectId ++ "/download",
                          final_project := fp, timestamp := O.timestampO depth }

/-- Result of a fuel-bounded run of the (potentially unboundedly recursive)
pipeline: `outOfFuel` marks an execution that was still recursing into
another Phase-1 restart when the restart budget ran out. -/
inductive RunResult where
  | ok (r : FinalResult)
  | exn (e : PyErr)
  | outOfFuel

/-- Embedding of `ProjectOrchestrator.process_project`: the source recursion
`return await self.process_project(improved_prompt)` is bounded here by an
explicit restart budget `fuel`; the source itself has no such bound. -/
def process_project (O : Oracles) : Nat → Nat → String → RunResult
  | 0, depth, prompt =>
    match process_attempt O depth prompt with
    | .done r => .ok r
    | .exn e => .exn e
    | .restartReq _ => .outOfFuel
  | Nat.succ fuel, depth, prompt =>
    match process_attempt O depth prompt with
    | .done r => .ok r
    | .exn e => .exn e
    | .restartReq improved => process_project O fuel (depth + 1) improved

/-- Whether a record has a non-empty `tasks` member. -/
def hasNonemptyTasks (j : JVal) : Bool :=
  match j with
  | .obj kvs =>
    match lookupKey kvs "tasks" with
    | some (.arr (_ :: _)) => true
    | _ => false
  | _ => false

/-- C2 counterexample: on the valid-JSON path with the generation content
`{"tasks": []}`, `analyze_project` returns without error, yet the returned
record's `result` carries an empty `tasks` sequence — refuting the claim
that every returning path yields a non-empty `tasks` sequence. -/
theorem analyze_nonempty_tasks_cex :
    (match analyze_project (.ok ⟨"\x7b\"tasks\": []\x7d", "gemini-pro"⟩) "p" with
     | .ok r => hasNonemptyTasks r.result
     | .error _ => true) = false := by rfl

/-- Lemma: `_fix_json_response` either returns a repaired record (marked by its
`note`) or falls back to the synthesized tasks. -/
theorem fix_json_response_cases (raw p : String) :
    (fix_json_response raw p).note = some "JSON was fixed" ∨
    fix_json_response raw p = create_fallback_tasks p := by
  unfold fix_json_response
  dsimp only
  split
  · split
    · exact .inl rfl
    · exact .inr rfl
  · exact .inr rfl

/-- C2 (amended): whenever `analyze_project` returns, the valid-JSON path
(`note = none`) guarantees only that `result` contains a `tasks` member
(possibly empty), while the fallback path (`note` as marked) returns
exactly the two synthesized tasks; the repaired path gives no `tasks`
guarantee, and generation errors or valid JSON without `tasks` propagate
as exceptions. -/
theorem analyze_tasks_amended (gen : Except PyErr GenResp) (p : String)
    (r : Phase1Resp) (h : analyze_project gen p = .ok r) :
    (r.note = none → pyContains r.result "tasks" = .ok true) ∧
    (r.note = some "Used fallback task structure" →
      ∃ t1 t2, JVal.item r.result "tasks" = .ok (.arr [t1, t2])) := by
  unfold analyze_project at h
  split at h
  · cases h
  next resp =>
    split at h
    · -- JSONDecodeError path: repaired record or fallback
      cases h
      rcases fix_json_response_cases resp.content p with hn | hfb
      · refine ⟨fun hn0 => ?_, fun hn0 => ?_⟩
        · rw [hn] at hn0; cases hn0
        · rw [hn] at hn0
          exact absurd (Option.some.inj hn0) (by decide)
      · rw [hfb]
        refine ⟨fun hn0 => ?_, fun _ => ⟨_, _, rfl⟩⟩
        cases hn0
    next result hparse =>
      split at h
      · cases h
      · rename_i hc
        cases h
        refine ⟨fun _ => hc, fun hn0 => ?_⟩
        cases hn0
      · cases h

/-- C2 amended-claim witness: the fallback path at a concrete prompt. -/
theorem analyze_tasks_amended_witness :
    ∃ t1 t2, JVal.item (create_fallback_tasks "p").result "tasks" = .ok (.arr [t1, t2]) := by
  obtain ⟨-, h2⟩ :=
    analyze_tasks_amended (.ok ⟨"plain text", "m"⟩) "p" (create_fallback_tasks "p") (by rfl)
  exact h2 rfl

/-- C7: the fallback spec is deterministic in the prompt — exactly two
tasks, with ids 1 and 2, agent types coder and writer, no dependencies for
task 1 and a dependency on task 1 for task 2. -/
theorem fallback_tasks_deterministic (p : String) :
    ∃ t1 t2,
      JVal.item (create_fallback_tasks p).result "tasks" = .ok (.arr [t1, t2]) ∧
      JVal.item t1 "id" = .ok (.num 1) ∧
      JVal.item t1 "agent_type" = .ok (.str "coder") ∧
      JVal.item t1 "dependencies" = .ok (.arr []) ∧
      JVal.item t2 "id" = .ok (.num 2) ∧
      JVal.item t2 "agent_type" = .ok (.str "writer") ∧
      JVal.item t2 "dependencies" = .ok (.arr [.num 1]) := by
  exact ⟨_, _, rfl, rfl, rfl, rfl, rfl, rfl, rfl⟩

/-- C10: a returned final-project record counts exactly the files written
and takes its instructions from `build_commands` when present, defaulting
to `["python main.py"]` otherwise (the `dict.get` with default). -/
theorem final_project_counts_instructions (dir : String) (integ spec : JVal)
    (fp : FinalProject) (h : generate_final_project dir integ spec = .ok fp) :
    fp.total_files = fp.files_created.length ∧
    JVal.getAttrD integ "build_commands" (.arr [.str "python main.py"]) = .ok fp.instructions := by
  unfold generate_final_project at h
  split at h
  · cases h
  next base hbase =>
    split at h
    · cases h
    next c4 hc4 =>
      split at h
      · cases h
      next extra hextra =>
        split at h
        · cases h
        next instr hinstr =>
          cases h
          exact ⟨rfl, hinstr⟩

/-- C10 witness: concrete integration output without `build_commands`. -/
theorem final_project_counts_instructions_witness :
    (⟨["main.py"], 1, "d", .arr [.str "python main.py"]⟩ : FinalProject).total_files =
      (⟨["main.py"], 1, "d", .arr [.str "python main.py"]⟩ : FinalProject).files_created.length ∧
    JVal.getAttrD (.obj [("main_file", .str "x")]) "build_commands" (.arr [.str "python main.py"]) =
      .ok (⟨["main.py"], 1, "d", .arr [.str "python main.py"]⟩ : FinalProject).instructions := by
  exact final_project_counts_instructions "d" (.obj [("main_file", .str "x")]) .null _ (by rfl)

/-- The `project_structure` write loop keeps exactly the entries passing
the string-and-length guard, in order. -/
theorem structure_files_eq_filter (entries : List (String × JVal)) :
    structure_files entries =
      (entries.filter fun kv => is_long_str kv.2).map Prod.fst := by
  induction entries with
  | nil => rfl
  | cons kv rest ih =>
    rcases kv with ⟨name, content⟩
    rw [structure_files, List.filter_cons]
    by_cases hc : is_long_str content
    · simp only [hc, if_pos, List.map_cons, ih]
    · simp only [hc, if_neg, Bool.false_eq_true, ite_false, ih]

/-- C8: final assembly writes a `project_structure` entry — and lists its
filename in `files_created` after the three fixed artifacts — exactly when
its content is a string longer than 10 characters; all other entries are
skipped without error. -/
theorem structure_entries_filter (dir : String) (m entries : List (String × JVal))
    (spec : JVal) (base : List String) (instr : JVal)
    (hps : lookupKey m "project_structure" = some (.obj entries))
    (hbase : base_files (.obj m) = .ok base)
    (hinstr : JVal.getAttrD (.obj m) "build_commands" (.arr [.str "python main.py"]) = .ok instr) :
    generate_final_project dir (.obj m) spec =
      .ok ⟨base ++ (entries.filter fun kv => is_long_str kv.2).map Prod.fst,
           (base ++ (entries.filter fun kv => is_long_str kv.2).map Prod.fst).length,
           dir, instr⟩ := by
  have hcontains : pyContains (.obj m) "project_structure" = .ok true := by
    simp only [pyContains, hps, Option.isSome]
  have hitem : JVal.item (.obj m) "project_structure" = .ok (.obj entries) := by
    simp only [JVal.item, hps]
  unfold generate_final_project
  rw [hbase, hcontains]
  simp only [if_true, hitem, hinstr, structure_files_eq_filter]

/-- C8 witness: one long-string entry kept, one short string and one
non-string entry skipped. -/
theorem structure_entries_filter_witness :
    generate_final_project "d"
        (.obj [("project_structure",
                .obj [("a.py", .str "0123456789ABC"), ("b.py", .str "short"), ("c.py", .num 5)])])
        .null =
      .ok ⟨["a.py"], 1, "d", .arr [.str "python main.py"]⟩ := by
  have h := structure_entries_filter "d"
    [("project_structure",
      .obj [("a.py", .str "0123456789ABC"), ("b.py", .str "short"), ("c.py", .num 5)])]
    [("a.py", .str "0123456789ABC"), ("b.py", .str "short"), ("c.py", .num 5)]
    .null [] (.arr [.str "python main.py"]) (by rfl) (by rfl) (by rfl)
  simpa using h

/-- C5: (i) for any task whose generation call raises, `execute_task`
returns — rather than propagates — a TaskResult with `status = "failed"`
and `output.error` the stringified exception (given that the prompt-field
lookups preceding the call and the `task["id"]` access of the handler
succeed, as they must for the generation call to be reached and surviving
tasks to be saved); (ii) whenever the orchestrator's Phase-2 loop
completes, it has appended exactly one result per task, so no single task
failure aborts the batch. -/
theorem failed_task_boundary_and_batch :
    (∀ (task ctx : JVal) (msg : String) (tt de ee ts tid : JVal) (js : String),
      JVal.item task "title" = .ok tt →
      JVal.item task "description" = .ok de →
      JVal.getAttrD ctx "tech_stack" (.arr [.str "Python"]) = .ok ts →
      pyJoin ", " ts = .ok js →
      JVal.item task "expected_output" = .ok ee →
      JVal.item task "id" = .ok tid →
      execute_task (.error (.genFailure msg)) task ctx =
        .ok (.obj [("task_id", tid), ("agent", .str "coder"),
                   ("status", .str "failed"),
                   ("output", .obj [("error", .str msg)]),
                   ("model_used", .str "error")])) ∧
    (∀ (O : Oracles) (depth : Nat) (spec : JVal) (tasks : List JVal) (idx : Nat)
        (rs : List JVal),
      run_phase2 O depth spec tasks idx = .ok rs → rs.length = tasks.length) := by
  constructor
  · intro task ctx msg tt de ee ts tid js htt hde hts hjs hee hid
    have htry : coder_try (.error (.genFailure msg)) task ctx = .error (.genFailure msg) := by
      simp only [coder_try, hde, hts, hjs, hee]
    unfold execute_task
    simp only [htt, htry, hid]
    rfl
  · intro O depth spec tasks
    induction tasks with
    | nil =>
      intro idx rs h
      unfold run_phase2 at h
      cases h
      rfl
    | cons task rest ih =>
      intro idx rs h
      unfold run_phase2 at h
      split at h
      · cases h
      · split at h
        · cases h
        · split at h
          · cases h
          · split at h
            · cases h
            next rs0 hrest =>
              cases h
              simpa using ih (idx + 1) rs0 hrest

/-- C5 witness: a concrete raising generation call on a well-formed task. -/
theorem failed_task_boundary_witness :
    execute_task (.error (.genFailure "network down"))
        (.obj [("id", .num 1), ("title", .str "t"), ("description", .str "d"),
               ("expected_output", .str "o")])
        (.obj []) =
      .ok (.obj [("task_id", .num 1), ("agent", .str "coder"),
                 ("status", .str "failed"),
                 ("output", .obj [("error", .str "network down")]),
                 ("model_used", .str "error")]) := by
  exact failed_task_boundary_and_batch.1
    (.obj [("id", .num 1), ("title", .str "t"), ("description", .str "d"),
           ("expected_output", .str "o")])
    (.obj []) "network down" (.str "t") (.str "d") (.str "o") (.arr [.str "Python"])
    (.num 1) "Python" rfl rfl rfl rfl rfl rfl

/-- Inversion of the embedded `==` test against the string `"pass"`. -/
theorem eq_of_option_beq_pass :
    ∀ (o : Option JVal), (o == some (JVal.str "pass")) = true → o = some (.str "pass")
  | none, h => by cases h
  | some .null, h => by cases h
  | some (.bool b), h => by cases h
  | some (.num n), h => by cases h
  | some (.arr xs), h => by cases h
  | some (.obj kvs), h => by cases h
  | some (.str s), h => by
    have hs : s = "pass" := eq_of_beq h
    rw [hs]

/-- The loop never runs more tester iterations than its remaining budget. -/
theorem runLoop_iters_le (O : Oracles) (depth : Nat) (spec : JVal) :
    ∀ (rem iter : Nat) (s : LoopState),
      loopIters (runLoop O depth spec iter rem s) ≤ iter + rem := by
  intro rem
  induction rem with
  | zero =>
    intro iter s
    rw [runLoop]
    simp [loopIters]
  | succ r ih =>
    intro iter s
    rw [runLoop]
    rcases hstep : loopStep O depth spec iter s with ⟨e, tested⟩ | s1 | ⟨errs, s1⟩ | s1
    · dsimp [loopIters]
      split <;> omega
    · dsimp [loopIters]; omega
    · dsimp [loopIters]; omega
    · dsimp only
      calc loopIters (runLoop O depth spec (iter + 1) r s1) ≤ (iter + 1) + r := ih (iter + 1) s1
        _ = iter + (r + 1) := by omega

/-- A `finished` result with `passed = false` only arises from exhausting
the whole budget. -/
theorem runLoop_finished_false_iters (O : Oracles) (depth : Nat) (spec : JVal) :
    ∀ (rem iter : Nat) (s s' : LoopState) (k : Nat),
      runLoop O depth spec iter rem s = .finished s' k false → k = iter + rem := by
  intro rem
  induction rem with
  | zero =>
    intro iter s s' k h
    rw [runLoop] at h
    injection h with h1 h2 h3
    omega
  | succ r ih =>
    intro iter s s' k h
    rw [runLoop] at h
    rcases hstep : loopStep O depth spec iter s with ⟨e, tested⟩ | s1 | ⟨errs, s1⟩ | s1 <;>
      rw [hstep] at h <;> dsimp only at h
    · split at h
      · cases h
      · cases h
    · injection h with h1 h2 h3
      cases h3
    · cases h
    · have := ih (iter + 1) s1 s' k h
      omega

/-- When the tester reports `"pass"`, the iteration body exits the loop at
once, recording the tester output as the phase-4 result. -/
theorem loopStep_pass_of_status (O : Oracles) (depth : Nat) (spec : JVal) (iter : Nat)
    (s : LoopState) (intOut out : JVal)
    (h1 : JVal.item s.phase3 "output" = .ok intOut)
    (h2 : JVal.item (O.testO depth iter intOut spec) "output" = .ok out)
    (h3 : JVal.getAttr out "status" = .ok (some (.str "pass"))) :
    loopStep O depth spec iter s =
      .pass { s with p4 := some (O.testO depth iter intOut spec) } := by
  unfold loopStep
  simp only [h1, h2, h3]
  rfl

/-- A `passed` exit really was caused by a tester output whose `status`
equals `"pass"`, and that tester record is the one kept as phase 4. -/
theorem runLoop_finished_true_status (O : Oracles) (depth : Nat) (spec : JVal) :
    ∀ (rem iter : Nat) (s s' : LoopState) (k : Nat),
      runLoop O depth spec iter rem s = .finished s' k true →
      ∃ t out, s'.p4 = some t ∧ JVal.item t "output" = .ok out ∧
        JVal.getAttr out "status" = .ok (some (.str "pass")) := by
  intro rem
  induction rem with
  | zero =>
    intro iter s s' k h
    rw [runLoop] at h
    injection h with h1 h2 h3
    cases h3
  | succ r ih =>
    intro iter s s' k h
    rw [runLoop] at h
    rcases hstep : loopStep O depth spec iter s with ⟨e, tested⟩ | s1 | ⟨errs, s1⟩ | s1 <;>
      rw [hstep] at h <;> dsimp only at h
    · split at h
      · cases h
      · cases h
    · injection h with h1 h2 h3
      subst h1
      unfold loopStep at hstep
      split at hstep
      · cases hstep
      next intOut heq1 =>
        dsimp only at hstep
        split at hstep
        · cases hstep
        next out heq2 =>
          split at hstep
          · cases hstep
          next st heq3 =>
            split at hstep
            next hcond =>
              injection hstep with hs1
              rw [← hs1]
              refine ⟨O.testO depth iter intOut spec, out, rfl, heq2, ?_⟩
              rw [heq3, eq_of_option_beq_pass st hcond]
            next hcond =>
              split at hstep
              · cases hstep
              next r1 heq4 =>
                split at hstep
                · split at hstep
                  · cases hstep
                  · cases hstep
                · split at hstep
                  · cases hstep
                  next r2 heq5 =>
                    split at hstep
                    · split at hstep
                      · cases hstep
                      · split at hstep
                        · cases hstep
                        · cases hstep
                    · cases hstep
    · cases h
    · exact ih (iter + 1) s1 s' k h

/-- C1: the Phase-4 refinement loop (i) completes at most `max_iterations`
(3) tester iterations on every outcome, (ii) reaches final assembly early
(`finished` before exhausting the budget) only by passing — a `finished`
exit without a pass always used the whole budget, (iii) exits the loop
immediately, in the same iteration, whenever the tester's output `status`
equals `"pass"`, and (iv) every passed exit was caused by a tester output
whose `status` equals `"pass"`. -/
theorem refinement_loop_bound_and_pass_exit :
    (∀ (O : Oracles) (depth : Nat) (spec : JVal) (s : LoopState),
      loopIters (runLoop O depth spec 0 max_iterations s) ≤ max_iterations) ∧
    (∀ (O : Oracles) (depth : Nat) (spec : JVal) (s s' : LoopState) (k : Nat),
      runLoop O depth spec 0 max_iterations s = .finished s' k false → k = max_iterations) ∧
    (∀ (O : Oracles) (depth : Nat) (spec : JVal) (iter r : Nat) (s : LoopState)
        (intOut out : JVal),
      JVal.item s.phase3 "output" = .ok intOut →
      JVal.item (O.testO depth iter intOut spec) "output" = .ok out →
      JVal.getAttr out "status" = .ok (some (.str "pass")) →
      runLoop O depth spec iter (r + 1) s =
        .finished { s with p4 := some (O.testO depth iter intOut spec) } (iter + 1) true) ∧
    (∀ (O : Oracles) (depth : Nat) (spec : JVal) (rem iter : Nat) (s s' : LoopState) (k : Nat),
      runLoop O depth spec iter rem s = .finished s' k true →
      ∃ t out, s'.p4 = some t ∧ JVal.item t "output" = .ok out ∧
        JVal.getAttr out "status" = .ok (some (.str "pass"))) := by
  refine ⟨?_, ?_, ?_, ?_⟩
  · intro O depth spec s
    simpa using runLoop_iters_le O depth spec max_iterations 0 s
  · intro O depth spec s s' k h
    simpa using runLoop_finished_false_iters O depth spec max_iterations 0 s s' k h
  · intro O depth spec iter r s intOut out h1 h2 h3
    rw [runLoop, loopStep_pass_of_status O depth spec iter s intOut out h1 h2 h3]
  · intro O depth spec rem iter s s' k h
    exact runLoop_finished_true_status O depth spec rem iter s s' k h

/-- A tester that always reports a bare (non-pass, non-restart) failure. -/
def exhaustOracles : Oracles where
  projectIdO := fun _ => "id"
  timestampO := fun _ => "ts"
  analyzeO := fun _ _ => .ok ⟨.obj [("tasks", .arr [])], "m", none⟩
  coderExecO := fun _ _ _ _ => .ok .null
  designerExecO := fun _ _ _ _ => .ok .null
  researcherExecO := fun _ _ _ _ => .ok .null
  integrateO := fun _ _ _ => .obj [("output", .obj [])]
  reintegrateO := fun _ _ _ _ => .obj [("output", .obj [])]
  testO := fun _ _ _ _ => .obj [("output", .obj [])]
  refixO := fun _ _ _ _ _ => .ok .null

/-- A tester that passes immediately. -/
def passOracles : Oracles where
  projectIdO := fun _ => "id"
  timestampO := fun _ => "ts"
  analyzeO := fun _ _ => .ok ⟨.obj [("tasks", .arr [])], "m", none⟩
  coderExecO := fun _ _ _ _ => .ok .null
  designerExecO := fun _ _ _ _ => .ok .null
  researcherExecO := fun _ _ _ _ => .ok .null
  integrateO := fun _ _ _ => .obj [("output", .obj [])]
  reintegrateO := fun _ _ _ _ => .obj [("output", .obj [])]
  testO := fun _ _ _ _ => .obj [("output", .obj [("status", .str "pass")])]
  refixO := fun _ _ _ _ _ => .ok .null

/-- C1 witness: the bound on a concrete run, exhaustion-only-without-pass
on a concrete non-passing run, and an immediate first-iteration exit on a
concrete passing run. -/
theorem refinement_loop_bound_witness :
    loopIters (runLoop exhaustOracles 0 (.obj []) 0 max_iterations
      ⟨[], .obj [("output", .obj [])], none, none⟩) ≤ max_iterations ∧
    (3 : Nat) = max_iterations ∧
    runLoop passOracles 0 (.obj []) 0 (2 + 1)
        ⟨[], .obj [("output", .obj [])], none, none⟩ =
      .finished ⟨[], .obj [("output", .obj [])], none,
                 some (.obj [("output", .obj [("status", .str "pass")])])⟩ 1 true := by
  refine ⟨refinement_loop_bound_and_pass_exit.1 exhaustOracles 0 (.obj [])
    ⟨[], .obj [("output", .obj [])], none, none⟩, ?_, ?_⟩
  · exact refinement_loop_bound_and_pass_exit.2.1 exhaustOracles 0 (.obj [])
      ⟨[], .obj [("output", .obj [])], none, none⟩
      ⟨[], .obj [("output", .obj [])], none, some (.obj [("output", .obj [])])⟩ 3 (by rfl)
  · exact refinement_loop_bound_and_pass_exit.2.2.1 passOracles 0 (.obj []) 0 2
      ⟨[], .obj [("output", .obj [])], none, none⟩ (.obj [])
      (.obj [("status", .str "pass")]) rfl rfl rfl

/-- C3: a `needs_phase1_restart` tester outcome makes `process_project`
re-invoke the whole pipeline on the original prompt extended with the
stringified error list — a strictly longer string with the original as a
prefix — and the recursive call's result is returned as this call's result
unchanged. -/
theorem restart_superset_prompt (O : Oracles) (fuel depth : Nat) (prompt : String)
    (p1 : Phase1Resp) (tasksJ : JVal) (tasks p2 : List JVal)
    (errs : JVal) (sEnd : LoopState) (k : Nat)
    (h1 : O.analyzeO depth prompt = .ok p1)
    (h2 : JVal.item p1.result "tasks" = .ok tasksJ)
    (h3 : pyIter tasksJ = .ok tasks)
    (h4 : run_phase2 O depth p1.result tasks 0 = .ok p2)
    (h5 : runLoop O depth p1.result 0 max_iterations
            ⟨p2, O.integrateO depth p2 p1.result, none, none⟩ = .restart errs sEnd k) :
    process_project O (fuel + 1) depth prompt =
      process_project O fuel (depth + 1) (prompt ++ "\n\nIssues to fix: " ++ pyStr errs) ∧
    (prompt ++ "\n\nIssues to fix: " ++ pyStr errs).length > prompt.length := by
  have hA : process_attempt O depth prompt =
      .restartReq (prompt ++ "\n\nIssues to fix: " ++ pyStr errs) := by
    unfold process_attempt
    simp only [h1, h2, h3, h4, h5]
  constructor
  · rw [process_project, hA]
  · rw [String.length_append, String.length_append]
    have h17 : ("\n\nIssues to fix: ").length = 17 := by rfl
    omega

/-- A tester that always requests a Phase-1 restart. -/
def restartOracles : Oracles where
  projectIdO := fun _ => "id"
  timestampO := fun _ => "ts"
  analyzeO := fun _ _ => .ok ⟨.obj [("tasks", .arr [])], "m", none⟩
  coderExecO := fun _ _ _ _ => .ok .null
  designerExecO := fun _ _ _ _ => .ok .null
  researcherExecO := fun _ _ _ _ => .ok .null
  integrateO := fun _ _ _ => .obj [("output", .obj [])]
  reintegrateO := fun _ _ _ _ => .obj [("output", .obj [])]
  testO := fun _ _ _ _ => .obj [("output", .obj [("needs_phase1_restart", .bool true)])]
  refixO := fun _ _ _ _ _ => .ok .null

/-- C3 witness: concrete restart on the first iteration. -/
theorem restart_superset_prompt_witness :
    process_project restartOracles 1 0 "p" =
      process_project restartOracles 0 1 ("p" ++ "\n\nIssues to fix: " ++ pyStr (.arr [])) ∧
    ("p" ++ "\n\nIssues to fix: " ++ pyStr (.arr [])).length > ("p" : String).length := by
  exact restart_superset_prompt restartOracles 0 0 "p"
    ⟨.obj [("tasks", .arr [])], "m", none⟩ (.arr []) [] []
    (.arr [])
    ⟨[], .obj [("output", .obj [])], none,
     some (.obj [("output", .obj [("needs_phase1_restart", .bool true)])])⟩ 1
    rfl rfl rfl rfl (by rfl)

/-- C9: the source puts no bound on Phase-1 restarts — with a tester that
requests a restart on every invocation, `process_project` exhausts every
finite restart budget, i.e. the recursion never terminates (it is not
bounded by `max_iterations`). -/
theorem unbounded_restart_divergence :
    ∀ (fuel depth : Nat) (prompt : String),
      process_project restartOracles fuel depth prompt = .outOfFuel := by
  intro fuel
  induction fuel with
  | zero =>
    intro depth prompt
    rw [process_project,
      show process_attempt restartOracles depth prompt =
        .restartReq (prompt ++ "\n\nIssues to fix: " ++ "[]") from rfl]
  | succ f ih =>
    intro depth prompt
    rw [process_project,
      show process_attempt restartOracles depth prompt =
        .restartReq (prompt ++ "\n\nIssues to fix: " ++ "[]") from rfl]
    exact ih (depth + 1) _

/-- C6: whenever the refinement loop finishes — by exhausting all three
iterations without ever passing (`passed = false`) just as by passing —
`process_project` proceeds to final assembly on whatever `phase3_result`
then holds and returns a record whose top-level `status` is `"success"`;
the record is the same function of the run data in both cases, carrying no
flag that distinguishes passing from giving up. -/
theorem exhausted_iterations_success_shape (O : Oracles) (fuel depth : Nat) (prompt : String)
    (p1 : Phase1Resp) (tasksJ : JVal) (tasks p2 : List JVal)
    (sEnd : LoopState) (k : Nat) (passed : Bool) (integ : JVal) (fp : FinalProject)
    (pname : JVal)
    (h1 : O.analyzeO depth prompt = .ok p1)
    (h2 : JVal.item p1.result "tasks" = .ok tasksJ)
    (h3 : pyIter tasksJ = .ok tasks)
    (h4 : run_phase2 O depth p1.result tasks 0 = .ok p2)
    (h5 : runLoop O depth p1.result 0 max_iterations
            ⟨p2, O.integrateO depth p2 p1.result, none, none⟩ = .finished sEnd k passed)
    (h6 : JVal.item sEnd.phase3 "output" = .ok integ)
    (h7 : generate_final_project ("generated_projects/project_" ++ O.projectIdO depth) integ
            p1.result = .ok fp)
    (h8 : JVal.getAttrD p1.result "project_name" (.str "Untitled Project") = .ok pname) :
    process_project O fuel depth prompt =
      .ok { status := "success", project_id := O.projectIdO depth, project_name := pname,
            description := prompt,
            phases := ⟨p1, sEnd.phase2, O.integrateO depth p2 p1.result, sEnd.p4⟩,
            project_path := "generated_projects/project_" ++ O.projectIdO depth,
            download_url := "/api/projects/" ++ O.projectIdO depth ++ "/download",
            final_project := fp, timestamp := O.timestampO depth } := by
  have hA : process_attempt O depth prompt =
      .done { status := "success", project_id := O.projectIdO depth, project_name := pname,
              description := prompt,
              phases := ⟨p1, sEnd.phase2, O.integrateO depth p2 p1.result, sEnd.p4⟩,
              project_path := "generated_projects/project_" ++ O.projectIdO depth,
              download_url := "/api/projects/" ++ O.projectIdO depth ++ "/download",
              final_project := fp, timestamp := O.timestampO depth } := by
    unfold process_attempt
    simp only [h1, h2, h3, h4, h5, h6, h7, h8]
  cases fuel <;> rw [process_project, hA]

/-- C6 witness: a concrete run whose three iterations all fail without a
pass and which still returns a `"success"` record. -/
theorem exhausted_iterations_success_witness :
    process_project exhaustOracles 0 0 "p" =
      .ok { status := "success", project_id := "id",
            project_name := .str "Untitled Project", description := "p",
            phases := ⟨⟨.obj [("tasks", .arr [])], "m", none⟩, [],
                       .obj [("output", .obj [])], some (.obj [("output", .obj [])])⟩,
            project_path := "generated_projects/project_id",
            download_url := "/api/projects/id/download",
            final_project := ⟨[], 0, "generated_projects/project_id",
                              .arr [.str "python main.py"]⟩,
            timestamp := "ts" } := by
  exact exhausted_iterations_success_shape exhaustOracles 0 0 "p"
    ⟨.obj [("tasks", .arr [])], "m", none⟩ (.arr []) [] []
    ⟨[], .obj [("output", .obj [])], none, some (.obj [("output", .obj [])])⟩ 3 false
    (.obj []) ⟨[], 0, "generated_projects/project_id", .arr [.str "python main.py"]⟩
    (.str "Untitled Project")
    rfl rfl rfl rfl (by rfl) rfl (by rfl) rfl

/-- Oracles realising the C4 failing input: the single task has id 2 and
agent type `"writer"`, and the tester requests `needs_phase2_modifications`
for task 2 on the first iteration. -/
def writerFixOracles : Oracles where
  projectIdO := fun _ => "id"
  timestampO := fun _ => "ts"
  analyzeO := fun _ _ => .ok ⟨.obj [
    ("tasks", .arr [.obj [("id", .num 2), ("agent_type", .str "writer"),
                          ("title", .str "t"), ("description", .str "d"),
                          ("expected_output", .str "o")]]),
    ("project_name", .str "X")], "m", none⟩
  coderExecO := fun _ _ _ _ => .ok (.obj [("task_id", .num 2), ("status", .str "completed")])
  designerExecO := fun _ _ _ _ => .ok .null
  researcherExecO := fun _ _ _ _ => .ok .null
  integrateO := fun _ _ _ => .obj [("output", .obj [])]
  reintegrateO := fun _ _ _ _ => .obj [("output", .obj [])]
  testO := fun _ _ _ _ => .obj [("output", .obj [
    ("needs_phase2_modifications", .bool true),
    ("specific_tasks_to_fix", .arr [.num 2])])]
  refixO := fun _ _ _ _ _ => .ok .null

/-- C4 (code bug): on a refinement step whose `specific_tasks_to_fix` lists
a found task of non-coder agent type before any coder re-execution, the
update loop reads the never-assigned local `new_result` and the run aborts
with a `NameError` — Integration is not re-run and no TaskResult is
replaced, contradicting the intended selective re-execution. -/
theorem phase2_fix_non_coder_name_error :
    process_project writerFixOracles 0 0 "build x" = .exn (.nameError "new_result") := by
  rfl
